import Mathlib

/-!
Shallow embedding of the render scheduling and publication orchestrator of
src/DIYbyt-Server/src/components/ProgramManager/pixlet_renderer.py.

Pure fragments of the Python code are translated into executable Lean
functions; the external `pixlet` process, the filesystem and the clock are
passed in as explicit parameters (an exit-code oracle, existence predicates,
elapsed times).  Machine-level details (logging, asyncio plumbing) are out of
scope; every function's doc comment points to the source lines it embeds.
-/

namespace DIYbyt

/-- Directory constant `GIF_DIR = RENDER_DIR / "gifs"` (pixlet_renderer.py line 39). -/
def GIF_DIR : String := "/opt/DIYbyt/render/gifs"

/-- Directory constant `TEMP_DIR = RENDER_DIR / "temp"` (pixlet_renderer.py line 40). -/
def TEMP_DIR : String := "/opt/DIYbyt/render/temp"

/-- Lexicographic strict comparison of character lists by code point, the
order Python uses to compare strings.  Lean's builtin `String` order is not
kernel-reducible, so the embedding carries its own. -/
def charListLt : List Char → List Char → Bool
  | _, [] => false
  | [], _ :: _ => true
  | a :: as, b :: bs =>
    if a < b then true
    else if b < a then false
    else charListLt as bs

/-- Python `a <= b` on strings: code-point lexicographic. -/
def strLe (a b : String) : Bool := charListLt a.data b.data || a == b

/-- Python `s.endswith(suff)`. -/
def strEndsWith (s suff : String) : Bool := suff.data.isSuffixOf s.data

/-- Values that can appear in a program's `config` mapping.  The JSON
primitives (string, number, bool) plus a compound list value, standing for
the value types the spec calls unsupported; the code never inspects the
type. -/
inductive PValue where
  | str (s : String)
  | int (n : Int)
  | bool (b : Bool)
  | list (xs : List PValue)

mutual

/-- Python `str(value)` as used by the f-string `f"{key}={value}"` on
pixlet_renderer.py line 136, on the closed value type `PValue`. -/
def pvStr : PValue → String
  | PValue.str s => s
  | PValue.int n => toString n
  | PValue.bool b => if b then "True" else "False"
  | PValue.list xs => "[" ++ String.intercalate ", " (pvStrList xs) ++ "]"

/-- Stringification of each element of a list value, in order. -/
def pvStrList : List PValue → List String
  | [] => []
  | v :: vs => pvStr v :: pvStrList vs

end

/-- One entry of `program_metadata.json` as read by `update_render_tasks`
(pixlet_renderer.py lines 303-346): `enabled` defaults to `False`,
`refresh_rate` to 60, `order` to `float('inf')` (modelled as `none`), and
`config` to the empty mapping. -/
structure ProgConfig where
  enabled : Bool
  refresh_rate : Option Nat
  order : Option Int
  config : List (String × PValue)

/-- Outcome of `PixletRenderer.render_app`: the boolean it returns, whether
the external `pixlet` command was actually invoked, and the argument vector
built for it. -/
structure RenderResult where
  success : Bool
  invoked : Bool
  cmd : List String
deriving DecidableEq

/-- Argument vector built on pixlet_renderer.py lines 132-138:
`["pixlet", "render", app_path]`, then one `f"{key}={value}"` per `config`
entry in mapping order, then `["--gif", "-o", output_path]`. -/
def buildCmd (app_path output_path : String) (config : List (String × PValue)) : List String :=
  ["pixlet", "render", app_path]
    ++ config.map (fun kv => kv.1 ++ "=" ++ pvStr kv.2)
    ++ ["--gif", "-o", output_path]

/-- `PixletRenderer.render_app` (pixlet_renderer.py lines 119-161).
`externalExit` is the opaque external `pixlet render` command as an exit-code
oracle over the argument vector; a launch failure is a nonzero code.  Paths
are carried as strings; `output_path` is the already-`.gif`-suffixed absolute
path (the callers in `continuous_render` always pass a `.gif` path, making
the `with_suffix` call on line 129 the identity). -/
def render_app (app_path output_path : String) (config : List (String × PValue))
    (externalExit : List String → Int) : RenderResult :=
  if !(strEndsWith app_path ".star") then
    { success := false, invoked := false, cmd := [] }
  else
    let cmd := buildCmd app_path output_path config
    { success := externalExit cmd == 0, invoked := true, cmd := cmd }

/-- Filesystem operations performed by `copy_to_slot`, recorded as a trace so
that atomicity of the publication step can be stated. -/
inductive FsOp where
  | copyFile (src dest : String)
  | chmod (path : String) (mode : Nat)
  | rename (src dest : String)
deriving DecidableEq

/-- Destination path `GIF_DIR / f"slot{slot_num}.gif"` (pixlet_renderer.py line 167). -/
def slotPath (slot_num : Nat) : String := GIF_DIR ++ "/slot" ++ toString slot_num ++ ".gif"

/-- `PixletRenderer.copy_to_slot` (pixlet_renderer.py lines 163-188):
if the source file exists, `shutil.copy2` copies it directly onto the slot
path and the slot file is chmodded to 0o666; the returned flag is the boolean
the method returns, paired with the trace of filesystem operations.
`srcExists` models the `src_path.exists()` check on line 170. -/
def copy_to_slot (srcExists : Bool) (temp_path : String) (slot_num : Nat) :
    Bool × List FsOp :=
  if !srcExists then (false, [])
  else (true, [FsOp.copyFile temp_path (slotPath slot_num),
               FsOp.chmod (slotPath slot_num) 0o666])

/-- Does this operation write the destination file in place (so that a
concurrent reader of `dest` can observe a partially written file)? -/
def writesInPlace (op : FsOp) (dest : String) : Bool :=
  match op with
  | FsOp.copyFile _ d => d == dest
  | FsOp.chmod _ _ => false
  | FsOp.rename _ _ => false

/-- Modelled from the spec: `Publish` "is performed via
write-to-temporary-then-rename (or equivalent all-or-nothing replace) so a
reader never observes a partially written file".  A trace satisfies this iff
no operation writes the destination in place — updates may only reach it
through an atomic rename. -/
def atomicReplaceTrace (ops : List FsOp) (dest : String) : Bool :=
  ops.all (fun op => !(writesInPlace op dest))

/-- Minimum sleep floor `0.1` from `max(0.1, refresh_rate - elapsed)`
(pixlet_renderer.py line 282). -/
def minimumSleep : ℚ := 1 / 10

/-- Constant `5` of `await asyncio.sleep(5)` in the exception handler of
`continuous_render` (pixlet_renderer.py line 292). -/
def fixedRetryDelay : ℚ := 5

/-- Sleep computation `sleep_time = max(0.1, refresh_rate - elapsed)`
(pixlet_renderer.py line 282). -/
def compute_sleep (refresh_rate elapsed : ℚ) : ℚ :=
  max minimumSleep (refresh_rate - elapsed)

/-- Effect of one non-exception iteration of the `while` body of
`continuous_render` on the loop's slot artifact (pixlet_renderer.py lines
271-274): if `render_app` returned `True` the freshly rendered artifact is
copied into the slot, otherwise nothing touches the slot — there is no code
path that removes the slot artifact on a failed render. -/
def render_cycle (renderOk : Bool) (newArtifact : String) (slot : Option String) :
    Option String :=
  if renderOk then some newArtifact else slot

/-- How one iteration of `continuous_render` ended: `body ok elapsed` is an
iteration whose body ran to completion with `render_app` returning `ok`
after `elapsed` time units; `exn` is an iteration aborted by an unexpected
exception reaching the `except Exception` handler (lines 289-292). -/
inductive CycleEnd where
  | body (renderOk : Bool) (elapsed : ℚ)
  | exn
deriving DecidableEq

/-- Sleep duration chosen by one iteration of `continuous_render`
(pixlet_renderer.py lines 280-292): a completed body sleeps
`max(0.1, refresh_rate - elapsed)` whether or not the render succeeded; only
the exception handler sleeps the fixed 5. -/
def cycle_sleep (refresh_rate : ℚ) : CycleEnd → ℚ
  | CycleEnd.body _ elapsed => compute_sleep refresh_rate elapsed
  | CycleEnd.exn => fixedRetryDelay

/-- Sort key comparison of
`sorted(metadata.items(), key=lambda x: (x[1].get("order", float('inf')), x[0]))`
(pixlet_renderer.py lines 330-333): order ascending with a missing order
treated as +infinity, ties broken by name ascending. -/
def keyLE (a b : String × ProgConfig) : Bool :=
  match a.2.order, b.2.order with
  | some x, some y =>
      if x < y then true
      else if y < x then false
      else strLe a.1 b.1
  | some _, none => true
  | none, some _ => false
  | none, none => strLe a.1 b.1

/-- The `sorted_programs` list of `update_render_tasks` (pixlet_renderer.py
lines 330-333): the metadata entries sorted by `keyLE`.  Python's stable
`sorted` is modelled by insertion sort. -/
def sorted_programs (metadata : List (String × ProgConfig)) : List (String × ProgConfig) :=
  List.insertionSort (fun a b => keyLE a b = true) metadata

/-- The conditions under which the loop of `update_render_tasks` actually
starts a render task for an entry (pixlet_renderer.py lines 336-344): name
nonempty, enabled, source file present in the cache, name ending in
`.star`.  `ex` models `(CACHE_DIR / program_name).exists()`. -/
def activeValid (ex : String → Bool) (p : String × ProgConfig) : Bool :=
  !(p.1 == "") && p.2.enabled && ex p.1 && strEndsWith p.1 ".star"

/-- The slot-assigning loop of `update_render_tasks` (pixlet_renderer.py
lines 327-360): walk the sorted entries with a `slot_number` counter starting
at 0, skip entries with an empty name or `enabled` false, skip entries whose
cached source file is missing or whose name does not end in `.star`, and give
each remaining program the next consecutive slot number. -/
def assignLoop (ex : String → Bool) : List (String × ProgConfig) → Nat → List (String × Nat)
  | [], _ => []
  | p :: rest, slot =>
    if p.1 == "" || !p.2.enabled then assignLoop ex rest slot
    else if !(ex p.1) || !(strEndsWith p.1 ".star") then assignLoop ex rest slot
    else (p.1, slot) :: assignLoop ex rest (slot + 1)

/-- Slot assignment computed by one run of `update_render_tasks` over a
metadata snapshot: program name paired with its slot number. -/
def slot_assignments (metadata : List (String × ProgConfig)) (ex : String → Bool) :
    List (String × Nat) :=
  assignLoop ex (sorted_programs metadata) 0

/-- `active_count = len([p for p in metadata.items() if p[1].get("enabled", False)])`
(pixlet_renderer.py line 319): the number of enabled entries, with no
validity check on the name or the source file. -/
def active_count (metadata : List (String × ProgConfig)) : Nat :=
  (metadata.filter (fun p => p.2.enabled)).length

/-- `cleanup_gif_slots` (pixlet_renderer.py lines 368-385) on the set of slot
numbers currently present on the publication surface: every slot numbered
`>= active_slots` is removed, slots below survive. -/
def cleanup_gif_slots (existing : List Nat) (active_slots : Nat) : List Nat :=
  existing.filter (fun n => decide (n < active_slots))

/-- Supervisor state touched by `update_render_tasks`: the names holding an
active render task (`render_tasks`) and the slot numbers present in
`GIF_DIR`. -/
structure SchedState where
  tasks : List String
  slots : List Nat
deriving DecidableEq

/-- `update_render_tasks` (pixlet_renderer.py lines 294-366) as a state
transition.  When the metadata file is missing (`metadata = none`) the
function logs a warning and returns at line 301, before any task is
cancelled: the state is unchanged.  Otherwise all existing tasks are
cancelled and replaced by one task per assigned program, and slots numbered
`>= active_count` are cleaned up. -/
def update_render_tasks (st : SchedState) (metadata : Option (List (String × ProgConfig)))
    (ex : String → Bool) : SchedState :=
  match metadata with
  | none => st
  | some md =>
      { tasks := (slot_assignments md ex).map Prod.fst,
        slots := cleanup_gif_slots st.slots (active_count md) }

/-- Over-approximation of the slot numbers that can exist on the publication
surface once a resync has settled and every new loop has rendered: the slots
surviving `cleanup_gif_slots` plus the slots assigned to the new generation
(each loop only ever writes its own assigned slot, pixlet_renderer.py line
274). -/
def settled_slots (existing : List Nat) (metadata : List (String × ProgConfig))
    (ex : String → Bool) : List Nat :=
  cleanup_gif_slots existing (active_count metadata)
    ++ (slot_assignments metadata ex).map Prod.snd

/-- `sync_and_update` (pixlet_renderer.py lines 251-259): runs
`sync_programs` then `update_render_tasks` and catches every exception,
only logging it — a failure of the underlying operations (`inner`) never
escapes. -/
def sync_and_update (inner : Except String Unit) : Except String Unit :=
  match inner with
  | Except.ok u => Except.ok u
  | Except.error _ => Except.ok ()

/-- Response of the `POST /sync` endpoint. -/
structure SyncResponse where
  httpStatus : Nat
  status : String
  message : String
deriving DecidableEq

/-- `trigger_sync` (pixlet_renderer.py lines 433-442): awaits
`sync_and_update` and answers 200 with status `success`; the `except` branch
answering status `error` fires only if `sync_and_update` itself raises. -/
def trigger_sync (inner : Except String Unit) : SyncResponse :=
  match sync_and_update inner with
  | Except.ok _ => { httpStatus := 200, status := "success",
                     message := "Programs synced and renders restarted" }
  | Except.error e => { httpStatus := 200, status := "error", message := e }


/-- Trichotomy of the code-point lexicographic comparison on character lists. -/
theorem charListLt_trichotomy (as : List Char) : ∀ bs : List Char,
    charListLt as bs = true ∨ as = bs ∨ charListLt bs as = true := by
  induction as with
  | nil =>
    intro bs
    cases bs with
    | nil => exact Or.inr (Or.inl rfl)
    | cons b bs => exact Or.inl rfl
  | cons a as ih =>
    intro bs
    cases bs with
    | nil => exact Or.inr (Or.inr rfl)
    | cons b bs =>
      rcases lt_trichotomy a b with h | h | h
      · left
        simp [charListLt, h]
      · subst h
        rcases ih bs with h2 | h2 | h2
        · left
          simp [charListLt, lt_irrefl, h2]
        · right; left
          rw [h2]
        · right; right
          simp [charListLt, lt_irrefl, h2]
      · right; right
        simp [charListLt, h]

/-- Transitivity of the code-point lexicographic comparison. -/
theorem charListLt_trans (as : List Char) : ∀ bs cs : List Char,
    charListLt as bs = true → charListLt bs cs = true → charListLt as cs = true := by
  induction as with
  | nil =>
    intro bs cs h1 h2
    cases bs with
    | nil => simp [charListLt] at h1
    | cons b bs =>
      cases cs with
      | nil => simp [charListLt] at h2
      | cons c cs => simp [charListLt]
  | cons a as ih =>
    intro bs cs h1 h2
    cases bs with
    | nil => simp [charListLt] at h1
    | cons b bs =>
      cases cs with
      | nil => simp [charListLt] at h2
      | cons c cs =>
        by_cases hab : a < b
        · by_cases hbc : b < c
          · simp [charListLt, lt_trans hab hbc]
          · by_cases hcb : c < b
            · simp [charListLt, hbc, hcb] at h2
            · have hbceq : b = c := le_antisymm (le_of_not_lt hcb) (le_of_not_lt hbc)
              subst hbceq
              simp [charListLt, hab]
        · by_cases hba : b < a
          · simp [charListLt, hab, hba] at h1
          · have habeq : a = b := le_antisymm (le_of_not_lt hba) (le_of_not_lt hab)
            subst habeq
            simp only [charListLt, lt_irrefl, if_false] at h1 ⊢
            by_cases hac : a < c
            · simp [hac]
            · by_cases hca : c < a
              · simp only [charListLt, hac, hca, if_true, if_false] at h2
                exact (Bool.false_ne_true h2).elim
              · have haceq : a = c := le_antisymm (le_of_not_lt hca) (le_of_not_lt hac)
                subst haceq
                simp only [charListLt, lt_irrefl, if_false] at h2 ⊢
                exact ih bs cs h1 h2

/-- Totality of the embedded Python string comparison. -/
theorem strLe_total (a b : String) : strLe a b = true ∨ strLe b a = true := by
  rcases charListLt_trichotomy a.data b.data with h | h | h
  · left
    simp [strLe, h]
  · have heq : a = b := String.ext h
    subst heq
    left
    simp [strLe]
  · right
    simp [strLe, h]

/-- Transitivity of the embedded Python string comparison. -/
theorem strLe_trans (a b c : String) (h1 : strLe a b = true) (h2 : strLe b c = true) :
    strLe a c = true := by
  simp only [strLe, Bool.or_eq_true] at h1 h2 ⊢
  rcases h1 with h1 | h1
  · rcases h2 with h2 | h2
    · exact Or.inl (charListLt_trans _ _ _ h1 h2)
    · have heq : b = c := eq_of_beq h2
      subst heq
      exact Or.inl h1
  · have heq : a = b := eq_of_beq h1
    subst heq
    exact h2

/-- Totality of the metadata sort key comparison. -/
theorem keyLE_total (a b : String × ProgConfig) : keyLE a b = true ∨ keyLE b a = true := by
  cases ha : a.2.order with
  | none =>
    cases hb : b.2.order with
    | none =>
      simp only [keyLE, ha, hb]
      exact strLe_total a.1 b.1
    | some y =>
      right
      simp [keyLE, ha, hb]
  | some x =>
    cases hb : b.2.order with
    | none =>
      left
      simp [keyLE, ha, hb]
    | some y =>
      simp only [keyLE, ha, hb]
      rcases lt_trichotomy x y with h | h | h
      · left
        simp [h]
      · subst h
        simp only [lt_irrefl, if_false]
        exact strLe_total a.1 b.1
      · right
        simp [h, lt_asymm h]

/-- Transitivity of the metadata sort key comparison. -/
theorem keyLE_trans (a b c : String × ProgConfig) (h1 : keyLE a b = true)
    (h2 : keyLE b c = true) : keyLE a c = true := by
  cases ha : a.2.order with
  | none =>
    cases hb : b.2.order with
    | none =>
      cases hc : c.2.order with
      | none =>
        simp only [keyLE, ha, hb, hc] at h1 h2 ⊢
        exact strLe_trans _ _ _ h1 h2
      | some z =>
        simp only [keyLE, hb, hc] at h2
        exact (Bool.false_ne_true h2).elim
    | some y =>
      simp only [keyLE, ha, hb] at h1
      exact (Bool.false_ne_true h1).elim
  | some x =>
    cases hc : c.2.order with
    | none =>
      simp [keyLE, ha, hc]
    | some z =>
      cases hb : b.2.order with
      | none =>
        simp only [keyLE, hb, hc] at h2
        exact (Bool.false_ne_true h2).elim
      | some y =>
        simp only [keyLE, ha, hb, hc] at h1 h2 ⊢
        by_cases hxy : x < y
        · by_cases hyz : y < z
          · simp [lt_trans hxy hyz]
          · by_cases hzy : z < y
            · simp only [hyz, hzy, if_true, if_false] at h2
              exact (Bool.false_ne_true h2).elim
            · have hyzeq : y = z := le_antisymm (le_of_not_lt hzy) (le_of_not_lt hyz)
              subst hyzeq
              simp [hxy]
        · by_cases hyx : y < x
          · simp only [hxy, hyx, if_true, if_false] at h1
            exact (Bool.false_ne_true h1).elim
          · have hxyeq : x = y := le_antisymm (le_of_not_lt hyx) (le_of_not_lt hxy)
            subst hxyeq
            simp only [lt_irrefl, if_false] at h1 ⊢
            by_cases hxz : x < z
            · simp [hxz]
            · by_cases hzx : z < x
              · simp only [hxz, hzx, if_true, if_false] at h2
                exact (Bool.false_ne_true h2).elim
              · have hxzeq : x = z := le_antisymm (le_of_not_lt hzx) (le_of_not_lt hxz)
                subst hxzeq
                simp only [lt_irrefl, if_false] at h2 ⊢
                exact strLe_trans _ _ _ h1 h2

instance : IsTotal (String × ProgConfig) (fun a b => keyLE a b = true) := ⟨keyLE_total⟩

instance : IsTrans (String × ProgConfig) (fun a b => keyLE a b = true) := ⟨keyLE_trans⟩


/-- The assignment loop of `update_render_tasks` is the enumeration, with
consecutive indices starting at `n`, of the sublist of entries passing the
enabled/validity checks. -/
theorem assignLoop_eq (ex : String → Bool) (l : List (String × ProgConfig)) :
    ∀ n : Nat, assignLoop ex l n =
      (List.enumFrom n (l.filter (activeValid ex))).map (fun q => (q.2.1, q.1)) := by
  induction l with
  | nil => intro n; rfl
  | cons p rest ih =>
    intro n
    rcases p with ⟨name, cfg⟩
    cases hn : (name == "") <;> cases he : cfg.enabled <;> cases hx : ex name <;>
      cases hs : strEndsWith name ".star" <;>
      simp [assignLoop, activeValid, List.filter, hn, he, hx, hs, ih, List.enumFrom_cons]

/-- Slot assignment is the enumeration of the enabled, valid entries of the
sorted program list. -/
theorem slot_assignments_eq (md : List (String × ProgConfig)) (ex : String → Bool) :
    slot_assignments md ex =
      (List.enumFrom 0 ((sorted_programs md).filter (activeValid ex))).map
        (fun q => (q.2.1, q.1)) :=
  assignLoop_eq ex (sorted_programs md) 0

/-- The number of assigned slots is the number of enabled, valid entries. -/
theorem slot_assignments_length (md : List (String × ProgConfig)) (ex : String → Bool) :
    (slot_assignments md ex).length =
      ((sorted_programs md).filter (activeValid ex)).length := by
  rw [slot_assignments_eq, List.length_map, List.enumFrom_length]

/-- The slot numbers assigned by one resync are exactly `0..k-1` where `k` is
the number of enabled, valid entries. -/
theorem slot_assignments_snd (md : List (String × ProgConfig)) (ex : String → Bool) :
    (slot_assignments md ex).map Prod.snd =
      List.range ((sorted_programs md).filter (activeValid ex)).length := by
  rw [slot_assignments_eq, List.map_map]
  have hcomp : (Prod.snd ∘ fun q : Nat × (String × ProgConfig) => (q.2.1, q.1)) =
      (Prod.fst : Nat × (String × ProgConfig) → Nat) := rfl
  rw [hcomp, List.enumFrom_map_fst, List.range_eq_range']

/-- The programs assigned slots, in slot order, are the enabled, valid
entries in sorted order. -/
theorem slot_assignments_fst (md : List (String × ProgConfig)) (ex : String → Bool) :
    (slot_assignments md ex).map Prod.fst =
      ((sorted_programs md).filter (activeValid ex)).map Prod.fst := by
  rw [slot_assignments_eq, List.map_map]
  have hcomp : (Prod.fst ∘ fun q : Nat × (String × ProgConfig) => (q.2.1, q.1)) =
      ((Prod.fst : (String × ProgConfig) → String) ∘
        (Prod.snd : Nat × (String × ProgConfig) → String × ProgConfig)) := rfl
  rw [hcomp, ← List.map_map, List.enumFrom_map_snd]

/-- There are at most as many assigned slots as enabled entries: validity
only filters further. -/
theorem slot_assignments_length_le_active_count (md : List (String × ProgConfig))
    (ex : String → Bool) : (slot_assignments md ex).length ≤ active_count md := by
  rw [slot_assignments_length]
  have hperm : ((sorted_programs md).filter (activeValid ex)).Perm
      (md.filter (activeValid ex)) :=
    List.Perm.filter _ (List.perm_insertionSort _ md)
  rw [hperm.length_eq]
  refine List.Sublist.length_le (List.monotone_filter_right md ?_)
  intro p hp
  simp only [activeValid, Bool.and_eq_true] at hp
  exact hp.1.1.2


/-- C1 counterexample: a render cycle whose render attempt fails does not
clear the slot — with a prior artifact published, the slot still holds an
artifact immediately after the failed cycle, contradicting the claim that
the slot has no artifact. -/
theorem C1_failed_render_keeps_prior_artifact :
    render_cycle false "clock.gif" (some "prior-success.gif") ≠ none := by decide

/-- C1 (amended): a render cycle whose render attempt fails leaves the slot
exactly as it was — an artifact published by a prior successful cycle of the
same loop remains visible; no code path clears the slot on failure. -/
theorem C1_failed_render_leaves_slot_unchanged (newArtifact : String)
    (slot : Option String) : render_cycle false newArtifact slot = slot := rfl

/-- C2 counterexample: with two enabled entries of which only one is valid
(`bad.txt` lacks the `.star` suffix), `k = 1` slot is assigned, yet slot 1,
left over from a previous larger generation, survives the resync — the
cleanup threshold is the enabled count 2, not `k`. -/
theorem C2_stale_slot_at_or_above_valid_count :
    ¬ (∀ n ∈ settled_slots [0, 1]
        [("a.star", ⟨true, none, none, []⟩), ("bad.txt", ⟨true, none, none, []⟩)]
        (fun s => s == "a.star" || s == "bad.txt"),
        n < ([("a.star", (⟨true, none, none, []⟩ : ProgConfig)),
              ("bad.txt", ⟨true, none, none, []⟩)].filter
                (activeValid (fun s => s == "a.star" || s == "bad.txt"))).length) := by
  decide

/-- C2 (amended): after a resync settles, every slot number present on the
publication surface is below `active_count` — the number of enabled entries,
valid or not; slots between the number of assigned programs and
`active_count` may survive with stale artifacts. -/
theorem C2_settled_slots_below_active_count (existing : List Nat)
    (md : List (String × ProgConfig)) (ex : String → Bool) (n : Nat)
    (hn : n ∈ settled_slots existing md ex) : n < active_count md := by
  rcases List.mem_append.mp hn with h | h
  · exact of_decide_eq_true (List.mem_filter.mp h).2
  · rw [slot_assignments_snd, ← slot_assignments_length] at h
    exact lt_of_lt_of_le (List.mem_range.mp h)
      (slot_assignments_length_le_active_count md ex)

/-- C2 witness: the amended bound evaluated at a concrete resync. -/
theorem C2_settled_slots_below_active_count_witness :
    0 < active_count [("a.star", ⟨true, none, none, []⟩),
                      ("bad.txt", ⟨true, none, none, []⟩)] :=
  C2_settled_slots_below_active_count [0, 1]
    [("a.star", ⟨true, none, none, []⟩), ("bad.txt", ⟨true, none, none, []⟩)]
    (fun s => s == "a.star" || s == "bad.txt") 0 (by decide)

/-- C3: slot assignment is a deterministic pure function of the program
list: running it twice on the same input yields identical assignments; the
sorted list is a permutation of the metadata, sorted by the key (order
ascending with a missing order last, then name ascending); the enabled,
valid programs receive, in that sorted sequence, exactly the consecutive
slot numbers `0..k-1`; and on the configuration with `a.star` enabled at
order 1, `b.star` enabled at order 0 and `c.star` disabled, slot 0 goes to
`b.star`, slot 1 to `a.star`, and `c.star` gets no slot. -/
theorem C3_deterministic_dense_slot_assignment :
    (∀ (md : List (String × ProgConfig)) (ex : String → Bool),
        slot_assignments md ex = slot_assignments md ex) ∧
    (∀ md : List (String × ProgConfig),
        (sorted_programs md).Perm md ∧
        List.Sorted (fun a b => keyLE a b = true) (sorted_programs md)) ∧
    (∀ (md : List (String × ProgConfig)) (ex : String → Bool),
        (slot_assignments md ex).map Prod.fst =
          ((sorted_programs md).filter (activeValid ex)).map Prod.fst ∧
        (slot_assignments md ex).map Prod.snd =
          List.range ((sorted_programs md).filter (activeValid ex)).length) ∧
    (slot_assignments
        [("a.star", ⟨true, none, some 1, []⟩), ("b.star", ⟨true, none, some 0, []⟩),
         ("c.star", ⟨false, none, none, []⟩)] (fun _ => true) =
      [("b.star", 0), ("a.star", 1)] ∧
     ((slot_assignments
        [("a.star", ⟨true, none, some 1, []⟩), ("b.star", ⟨true, none, some 0, []⟩),
         ("c.star", ⟨false, none, none, []⟩)] (fun _ => true)).map
           Prod.fst).contains "c.star" = false) := by
  refine ⟨fun md ex => rfl, fun md => ⟨List.perm_insertionSort _ md, ?_⟩,
    fun md ex => ⟨slot_assignments_fst md ex, slot_assignments_snd md ex⟩,
    by decide, by decide⟩
  exact List.sorted_insertionSort (fun a b => keyLE a b = true) md

/-- C4 counterexample: a cycle whose render command fails (render_app
returns false) sleeps `max(0.1, 60 - 1) = 59` time units, not the fixed
retry delay 5 — the sleep depends on the refresh rate. -/
theorem C4_failed_render_sleeps_refresh_based :
    cycle_sleep 60 (CycleEnd.body false 1) = 59 ∧ (59 : ℚ) ≠ fixedRetryDelay := by
  constructor
  · norm_num [cycle_sleep, compute_sleep, minimumSleep]
  · norm_num [fixedRetryDelay]

/-- C4 (amended): the fixed 5-unit retry delay applies only to a cycle
aborted by an unexpected exception; a cycle whose render command merely
fails sleeps the normal `max(0.1, refreshRate - elapsed)`, which depends on
the refresh rate. -/
theorem C4_retry_delay_only_on_exception :
    (∀ refresh_rate : ℚ, cycle_sleep refresh_rate CycleEnd.exn = fixedRetryDelay) ∧
    (∀ refresh_rate elapsed : ℚ,
        cycle_sleep refresh_rate (CycleEnd.body false elapsed) =
          max minimumSleep (refresh_rate - elapsed)) :=
  ⟨fun _ => rfl, fun _ _ => rfl⟩

/-- C5: on a successful render cycle the computed sleep equals
`max(minimumSleep, refreshRate - elapsed)`, is always positive (hence never
negative), equals 8 for refresh rate 10 and elapsed 2, and equals the
minimum sleep whenever the elapsed time reaches the refresh rate. -/
theorem C5_success_sleep_cadence :
    (∀ refresh_rate elapsed : ℚ,
        cycle_sleep refresh_rate (CycleEnd.body true elapsed) =
          max minimumSleep (refresh_rate - elapsed) ∧
        0 < cycle_sleep refresh_rate (CycleEnd.body true elapsed)) ∧
    cycle_sleep 10 (CycleEnd.body true 2) = 8 ∧
    (∀ refresh_rate elapsed : ℚ, refresh_rate ≤ elapsed →
        cycle_sleep refresh_rate (CycleEnd.body true elapsed) = minimumSleep) := by
  refine ⟨fun rr e => ⟨rfl, ?_⟩, ?_, fun rr e h => ?_⟩
  · have hpos : (0 : ℚ) < minimumSleep := by norm_num [minimumSleep]
    exact lt_of_lt_of_le hpos (le_max_left _ _)
  · norm_num [cycle_sleep, compute_sleep, minimumSleep]
  · have hle : rr - e ≤ minimumSleep := by
      have hsub : rr - e ≤ 0 := sub_nonpos.mpr h
      have hpos : (0 : ℚ) < minimumSleep := by norm_num [minimumSleep]
      linarith
    show compute_sleep rr e = minimumSleep
    rw [compute_sleep, max_eq_left hle]

/-- C5 witness: elapsed time exceeding the refresh rate yields the minimum
sleep, at refresh rate 10 and elapsed 12. -/
theorem C5_success_sleep_cadence_witness :
    cycle_sleep 10 (CycleEnd.body true 12) = minimumSleep :=
  C5_success_sleep_cadence.2.2 10 12 (by decide)

/-- C6: `copy_to_slot` publishes by copying the temporary file directly onto
the slot path (shutil.copy2) followed by a chmod; the trace contains no
rename, so the update is an in-place write that a concurrent reader can
observe partially written — despite the source comment calling the copy
atomic, the trace violates the atomic-replace contract. -/
theorem C6_publish_copies_in_place :
    copy_to_slot true (TEMP_DIR ++ "/clock.star.gif") 0 =
      (true, [FsOp.copyFile (TEMP_DIR ++ "/clock.star.gif") (slotPath 0),
              FsOp.chmod (slotPath 0) 438]) ∧
    atomicReplaceTrace (copy_to_slot true (TEMP_DIR ++ "/clock.star.gif") 0).2
      (slotPath 0) = false :=
  ⟨by decide, by decide⟩

/-- C7 counterexample: with a param whose value is an unsupported type (a
list), `render_app` still invokes the external command — it even reports
success when the command exits 0 — instead of failing fast with a
validation error before the invocation. -/
theorem C7_unsupported_param_still_invokes :
    (render_app "clock.star" "/opt/DIYbyt/render/temp/clock.star.gif"
        [("k", PValue.list [PValue.int 1])] (fun _ => 0)).invoked = true ∧
    (render_app "clock.star" "/opt/DIYbyt/render/temp/clock.star.gif"
        [("k", PValue.list [PValue.int 1])] (fun _ => 0)).success = true :=
  ⟨by decide, by decide⟩

/-- C7 (amended): no validation of param value types is performed: every
value, supported or not, is stringified and appended in mapping order as a
`key=value` argument, and the external command is invoked regardless. -/
theorem C7_params_stringified_without_validation (app_path output_path : String)
    (config : List (String × PValue)) (externalExit : List String → Int)
    (h : strEndsWith app_path ".star" = true) :
    render_app app_path output_path config externalExit =
      { success := externalExit (buildCmd app_path output_path config) == 0,
        invoked := true,
        cmd := ["pixlet", "render", app_path]
          ++ config.map (fun kv => kv.1 ++ "=" ++ pvStr kv.2)
          ++ ["--gif", "-o", output_path] } := by
  simp [render_app, h, buildCmd]

/-- C7 witness: the amended behaviour evaluated on a concrete call carrying
a list-valued param. -/
theorem C7_params_stringified_without_validation_witness :
    render_app "clock.star" "/t.gif" [("k", PValue.list [PValue.int 1])] (fun _ => 1) =
      { success := false, invoked := true,
        cmd := ["pixlet", "render", "clock.star", "k=[1]", "--gif", "-o", "/t.gif"] } :=
  (C7_params_stringified_without_validation "clock.star" "/t.gif"
      [("k", PValue.list [PValue.int 1])] (fun _ => 1) (by decide)).trans (by decide)

/-- C8 counterexample: with the metadata file missing, `update_render_tasks`
returns before cancelling anything: the previously active render loop for
`clock.star` is still running afterwards, contradicting the claim that all
previously active loops are torn down. -/
theorem C8_missing_config_keeps_old_tasks :
    (update_render_tasks ⟨["clock.star"], [0]⟩ none (fun _ => false)).tasks =
      ["clock.star"] ∧
    (update_render_tasks ⟨["clock.star"], [0]⟩ none (fun _ => false)).tasks ≠ [] :=
  ⟨by decide, by decide⟩

/-- C8 (amended): a missing configuration document is not fatal — the load
logs a warning and `update_render_tasks` returns early — but the resync does
not proceed: the scheduler state is left entirely unchanged, previously
active render loops keep running and no new loops are spawned. -/
theorem C8_missing_config_returns_early (st : SchedState) (ex : String → Bool) :
    update_render_tasks st none ex = st := rfl

/-- C9 counterexample: when the triggered sync-and-update operation fails,
`POST /sync` still answers status `success`, because `sync_and_update`
swallows the failure — contradicting the claim that the `error` status is
returned exactly when the operation failed. -/
theorem C9_failed_sync_reports_success :
    (trigger_sync (Except.error "disk full")).status = "success" ∧
    (trigger_sync (Except.error "disk full")).status ≠ "error" :=
  ⟨by decide, by decide⟩

/-- C9 (amended): every invocation of `POST /sync` returns HTTP 200 with
status `success` and the fixed message, whether or not the underlying
sync-and-update failed: `sync_and_update` catches and logs every failure, so
the endpoint's `error` branch is unreachable through a failing resync. -/
theorem C9_sync_endpoint_always_success (inner : Except String Unit) :
    trigger_sync inner =
      { httpStatus := 200, status := "success",
        message := "Programs synced and renders restarted" } := by
  cases inner with
  | ok u => rfl
  | error e => rfl

/-- C10: a render call whose program path does not end in `.star` returns
failure from the guard inside `render_app` itself, with the external render
command never invoked and no command line even built. -/
theorem C10_non_star_path_rejected_before_invocation (app_path output_path : String)
    (config : List (String × PValue)) (externalExit : List String → Int)
    (h : strEndsWith app_path ".star" = false) :
    render_app app_path output_path config externalExit =
      { success := false, invoked := false, cmd := [] } := by
  simp [render_app, h]

/-- C10 witness: the guard evaluated on a concrete non-`.star` path. -/
theorem C10_non_star_path_rejected_before_invocation_witness :
    render_app "clock.txt" "/t.gif" [] (fun _ => 0) =
      { success := false, invoked := false, cmd := [] } :=
  C10_non_star_path_rejected_before_invocation "clock.txt" "/t.gif" [] (fun _ => 0)
    (by decide)

end DIYbyt
